import Mathlib

/-
Shallow embedding of the reconciliation controller in
src/operator/controllers/ecommerceapplication_controller.go
(package controllers, type ECommerceApplicationReconciler).

The cluster resource store is modelled as a structure of total functions
from (name, namespace) keys to a get outcome; the Go client's Get can
return the object, a NotFound error, or some other error, which the
GetOutcome type mirrors.  Create and Update against the store are
modelled as pointwise function update; the reconcile function returns
the final store, the ordered list of write operations it performed, and
the (ctrl.Result, error) pair it returned, with the Go panic on an
out-of-range index represented by a separate outcome constructor.

JSON unmarshalling of the credential secret payload is external library
behaviour; the payload is embedded as either a malformed blob or an
already-structured PostgresBindingJSON value, and jsonUnmarshal mirrors
the success/failure of encoding/json.Unmarshal on it.  Base64 decoding
(encoding/base64 StdEncoding.DecodeString) is implemented concretely,
returning both the bytes decoded so far and a success flag, since the
source discards the error component of its result.
-/

/-- Outcome of a Get against the cluster store: the object, a NotFound
error, or any other error (modelled with a message string). -/
inductive GetOutcome (α : Type) where
  | found (a : α)
  | notFound
  | failure (e : String)
deriving DecidableEq, Repr

/-- Go struct Hosts: one endpoint of the postgres binding (fields
hostname, port). -/
structure Hosts where
  hostname : String
  port : Int
deriving DecidableEq, Repr

/-- Go struct Authentication (fields method, password, username). -/
structure Authentication where
  method : String
  password : String
  username : String
deriving DecidableEq, Repr

/-- Go struct Certificate (fields certificate_authority,
certificate_base64, name). -/
structure Certificate where
  certificateAuthority : String
  certificateBase64 : String
  name : String
deriving DecidableEq, Repr

/-- Go struct QueryOptions (field sslmode). -/
structure QueryOptions where
  sslMode : String
deriving DecidableEq, Repr

/-- Go struct Postgres: the postgres object of the binding JSON.  The
controller reads authentication, certificate, database and hosts; the
remaining fields are carried for fidelity to the Go declaration. -/
structure Postgres where
  authentication : Authentication
  certificate : Certificate
  composed : List String
  database : String
  hosts : List Hosts
  path : String
  queryOptions : QueryOptions
  scheme : String
  typeStr : String
deriving DecidableEq, Repr

/-- Go struct PostgresBindingJSON.  The cli field of the Go struct is
never read by the controller and is omitted from the model. -/
structure PostgresBindingJSON where
  postgres : Postgres
deriving DecidableEq, Repr

/-- A byte payload stored under a key of a secret's Data map: either a
blob that does not unmarshal into PostgresBindingJSON, or one that
unmarshals to the given value. -/
inductive JsonPayload where
  | malformed (raw : String)
  | wellFormed (v : PostgresBindingJSON)
deriving DecidableEq, Repr

/-- Model of encoding/json.Unmarshal into PostgresBindingJSON.  A
missing "connection" key gives Go a nil byte slice, which Unmarshal
rejects, so the none case is also an error. -/
def jsonUnmarshal : Option JsonPayload → Except String PostgresBindingJSON
  | some (.wellFormed v) => .ok v
  | some (.malformed raw) => .error ("could not unmarshal: " ++ raw)
  | none => .error "could not unmarshal: unexpected end of JSON input"

/-- A corev1.Secret as this controller reads and writes it: object
metadata name/namespace, the binary Data map (its values modelled as
JsonPayload since only the "connection" key is ever unmarshalled), the
StringData map, the Immutable pointer and the Type string. -/
structure SecretRes where
  name : String
  ns : String
  data : List (String × JsonPayload)
  stringData : List (String × String)
  immutable : Bool
  typeStr : String
deriving DecidableEq, Repr

/-- Reading secret.Data["connection"], as the controller does before
unmarshalling. -/
def connectionPayload (s : SecretRes) : Option JsonPayload :=
  (s.data.find? (fun p => p.1 == "connection")).map (fun p => p.2)

/-- A batch.Job as built by createPostgresJob: metadata name/namespace,
owner references (modelled as the list of owner names), the pod
template's metadata namespace and the container images/args. -/
structure JobRes where
  name : String
  ns : String
  ownerReferences : List String
  templateName : String
  templateNs : String
  containerImages : List String
  containerArgs : List (List String)
deriving DecidableEq, Repr

/-- An appsv1.Deployment as built by deploymentForMemcached: metadata
name/namespace, owner references (list of owner names; the source sets
one via ctrl.SetControllerReference), replica count, selector match
labels, template labels and the container image. -/
structure DeploymentRes where
  name : String
  ns : String
  ownerReferences : List String
  replicas : Int
  selectorLabels : List (String × String)
  templateLabels : List (String × String)
  containerImage : String
deriving DecidableEq, Repr

/-- The ECommerceApplication custom resource: metadata name/namespace
and the spec fields the controller reads (Spec.Size,
Spec.PostgresSecretName, Spec.TenantName). -/
structure ECommerceApplication where
  name : String
  ns : String
  size : Int
  postgresSecretName : String
  tenantName : String
deriving DecidableEq, Repr

/-- The cluster resource store, one partial map per resource kind,
keyed by (name, namespace).  A key can also be mapped to a failing Get
to model store errors other than NotFound. -/
structure ClusterState where
  apps : String × String → GetOutcome ECommerceApplication
  secrets : String × String → GetOutcome SecretRes
  jobs : String × String → GetOutcome JobRes
  deployments : String × String → GetOutcome DeploymentRes

attribute [ext] ClusterState

/-- The ctrl.Result value returned by Reconcile: the Requeue flag and
RequeueAfter expressed in seconds (time.Minute = 60, time.Second*300 =
300). -/
structure CtrlResult where
  requeue : Bool
  requeueAfterSeconds : Int
deriving DecidableEq, Repr

/-- The (ctrl.Result, error) pair returned by Reconcile.  Every error
return in the source carries a zero ctrl.Result, so the err case keeps
only the error.  The panicked case models the Go runtime panic raised
by indexing Hosts[0] on an empty slice, which is not a return value at
all. -/
inductive ReconcileOutcome where
  | ok (res : CtrlResult)
  | err (e : String)
  | panicked (msg : String)
deriving DecidableEq, Repr

/-- One write performed against the store, tagged create or update per
resource kind, carrying the object written. -/
inductive WriteOp where
  | createSecretOp (s : SecretRes)
  | updateSecretOp (s : SecretRes)
  | createJobOp (j : JobRes)
  | updateJobOp (j : JobRes)
  | createDeploymentOp (d : DeploymentRes)
  | updateDeploymentOp (d : DeploymentRes)
deriving DecidableEq, Repr

/-- Result of one Reconcile invocation: the store after the run, the
ordered writes performed, and the returned outcome. -/
structure ReconcileResult where
  state : ClusterState
  writes : List WriteOp
  outcome : ReconcileOutcome

/-- Go base64: index of a character in the StdEncoding alphabet. -/
def b64Index (c : Char) : Option Nat :=
  if 'A' ≤ c ∧ c ≤ 'Z' then some (c.toNat - 65)
  else if 'a' ≤ c ∧ c ≤ 'z' then some (c.toNat - 97 + 26)
  else if '0' ≤ c ∧ c ≤ '9' then some (c.toNat - 48 + 52)
  else if c = '+' then some 62
  else if c = '/' then some 63
  else none

/-- Go base64: decode one four-character quantum into its one, two or
three bytes, honouring trailing padding; none on a corrupt quantum. -/
def decodeQuantum (c0 c1 c2 c3 : Char) : Option (List Nat) :=
  match b64Index c0, b64Index c1 with
  | some i0, some i1 =>
    let byte0 := i0 * 4 + i1 / 16
    if c2 = '=' then
      if c3 = '=' then some [byte0] else none
    else
      match b64Index c2 with
      | some i2 =>
        let byte1 := (i1 % 16) * 16 + i2 / 4
        if c3 = '=' then some [byte0, byte1]
        else
          match b64Index c3 with
          | some i3 => some [byte0, byte1, (i2 % 4) * 64 + i3]
          | none => none
      | none => none
  | _, _ => none

/-- Go base64: decode the character stream quantum by quantum,
returning the bytes decoded so far together with a success flag; on
corrupt input the bytes of the complete quantums already decoded are
kept, matching StdEncoding.DecodeString returning partial output with
a CorruptInputError. -/
def decodeGroups : List Char → List Nat × Bool
  | [] => ([], true)
  | c0 :: c1 :: c2 :: c3 :: rest =>
    match decodeQuantum c0 c1 c2 c3 with
    | some bs =>
      if bs.length < 3 then (bs, rest.isEmpty)
      else
        let tail := decodeGroups rest
        (bs ++ tail.1, tail.2)
    | none => ([], false)
  | _ => ([], false)

/-- Model of b64.StdEncoding.DecodeString followed by the string
conversion the controller applies: the decoded string and whether the
decode succeeded (the second component is what the source discards
with the blank identifier). -/
def b64DecodeString (s : String) : String × Bool :=
  let out := decodeGroups s.data
  (String.mk (out.1.map Char.ofNat), out.2)

/-- Go function createSecret(name, namespace, key, value): builds the
corev1.Secret with a single StringData entry, empty Data, a fresh
false Immutable pointer and Type Opaque.  The Go version also returns
a nil error, so the model is total. -/
def createSecret (name ns key value : String) : SecretRes :=
  { name := name
    ns := ns
    data := []
    stringData := [(key, value)]
    immutable := false
    typeStr := "Opaque" }

/-- Go function labelsForMemcached(name). -/
def labelsForMemcached (name : String) : List (String × String) :=
  [("app", "memcached"), ("memcached_cr", name)]

/-- Go method deploymentForMemcached(m): deployment named after the
application, in its namespace, replicas from Spec.Size, selector and
template labels from labelsForMemcached, one service-catalog
container, and the owner reference set to the application by
ctrl.SetControllerReference. -/
def deploymentForMemcached (m : ECommerceApplication) : DeploymentRes :=
  { name := m.name
    ns := m.ns
    ownerReferences := [m.name]
    replicas := m.size
    selectorLabels := labelsForMemcached m.name
    templateLabels := labelsForMemcached m.name
    containerImage := "quay.io/nheidloff/service-catalog:latest" }

/-- Go function createPostgresJob(namespace): job with fixed name pg,
ObjectMeta.Namespace metav1.NamespaceDefault (the string default, not
the argument), an explicitly empty OwnerReferences list, and a pod
template whose metadata uses the argument namespace.  The Go version
also returns a nil error, so the model is total. -/
def createPostgresJob (ns : String) : JobRes :=
  { name := "pg"
    ns := "default"
    ownerReferences := []
    templateName := "pg"
    templateNs := ns
    containerImages := ["bash", ""]
    containerArgs := [[], ["/bin/sh", "-c", "date; echo Hello from the Kubernetes cluster"]] }

/-- The connection URL string built for the postgres.url secret from
the first endpoint and the database name. -/
def postgresUrlString (h : Hosts) (database : String) : String :=
  "jdbc:postgresql://" ++ h.hostname ++ ":" ++ toString h.port ++ "/" ++ database
    ++ "?sslmode=verify-full&sslrootcert=/cloud-postgres-cert"

/-- Pointwise store write of a secret at its own (name, namespace)
key; both Create and Update land here in the model. -/
def putSecret (st : ClusterState) (s : SecretRes) : ClusterState :=
  { st with secrets := fun k => if k = (s.name, s.ns) then .found s else st.secrets k }

/-- Pointwise store write of a job at its own (name, namespace) key. -/
def putJob (st : ClusterState) (j : JobRes) : ClusterState :=
  { st with jobs := fun k => if k = (j.name, j.ns) then .found j else st.jobs k }

/-- Pointwise store write of a deployment at its own (name, namespace)
key. -/
def putDeployment (st : ClusterState) (d : DeploymentRes) : ClusterState :=
  { st with deployments := fun k => if k = (d.name, d.ns) then .found d else st.deployments k }

/-- Branch selection of every create-or-update step in Reconcile: the
source creates exactly when err is non-nil and errors.IsNotFound(err)
holds, and otherwise takes the update branch - also when the Get
failed with a different error. -/
def upsertTakesCreate {α : Type} : GetOutcome α → Bool
  | .notFound => true
  | _ => false

/-- The error surfaced by one create-or-update step, given the Get
outcome and the errors (none when nil) returned by the Create and the
Update call: only the chosen write's error can surface, never the Get
error. -/
def upsertStepError {α : Type} (g : GetOutcome α) (createErr updateErr : Option String) :
    Option String :=
  if upsertTakesCreate g then createErr else updateErr

/-- One secret upsert step of Reconcile: Get into the scratch secret
variable, Create the built secret when NotFound, otherwise Update the
built secret.  Either way the store ends up holding the built secret;
the write op records which branch ran. -/
def upsertSecret (st : ClusterState) (s : SecretRes) : ClusterState × WriteOp :=
  (putSecret st s,
   if upsertTakesCreate (st.secrets (s.name, s.ns)) then .createSecretOp s
   else .updateSecretOp s)

/-- The job object the update branch writes: the Get call reads into
the pgJob variable itself, so when the job exists the Update writes
back the object just read; when the Get failed (NotFound or
otherwise) the variable still holds the freshly built job. -/
def jobUpdateContent (st : ClusterState) (j : JobRes) : JobRes :=
  match st.jobs (j.name, j.ns) with
  | .found existing => existing
  | _ => j

/-- The job upsert step of Reconcile: Create the built job when the
Get reports NotFound, otherwise Update the pgJob variable (which the
Get overwrote when the job was found). -/
def upsertJob (st : ClusterState) (j : JobRes) : ClusterState × WriteOp :=
  (putJob st (jobUpdateContent st j),
   if upsertTakesCreate (st.jobs (j.name, j.ns)) then .createJobOp j
   else .updateJobOp (jobUpdateContent st j))

/-- The message of the Go runtime panic raised by Hosts[0] on an empty
slice. -/
def indexOutOfRangeMsg : String := "runtime error: index out of range [0] with length 0"

/-- The deployment tail of Reconcile (source lines 282-339): fetch the
deployment by the application's name/namespace; when NotFound, create
deploymentForMemcached and return Requeue true; on another Get error,
surface it; otherwise compare Spec.Replicas with Spec.Size, updating
and requeueing after one minute on drift, and returning an empty
result with no error when they already agree. -/
def reconcileDeployment (st : ClusterState) (m : ECommerceApplication) (ws : List WriteOp) :
    ReconcileResult :=
  match st.deployments (m.name, m.ns) with
  | .notFound =>
    let dep := deploymentForMemcached m
    ⟨putDeployment st dep, ws ++ [.createDeploymentOp dep],
     .ok { requeue := true, requeueAfterSeconds := 0 }⟩
  | .failure e => ⟨st, ws, .err e⟩
  | .found found0 =>
    if found0.replicas = m.size then
      ⟨st, ws, .ok { requeue := false, requeueAfterSeconds := 0 }⟩
    else
      let upd := { found0 with replicas := m.size }
      ⟨putDeployment st upd, ws ++ [.updateDeploymentOp upd],
       .ok { requeue := false, requeueAfterSeconds := 60 }⟩

/-- The body of Reconcile after the binding JSON has been unmarshalled
(source lines 159-339): upsert the four derived secrets in order
(username, password, certificate-data with the base64 decode error
discarded, url built from Hosts[0] - a panic when hosts is empty),
then upsert the pg job, then run the deployment tail. -/
def reconcileAfterParse (st0 : ClusterState) (m : ECommerceApplication)
    (data : PostgresBindingJSON) : ReconcileResult :=
  let s1 := createSecret "postgres.username" m.ns "POSTGRES_USERNAME"
    data.postgres.authentication.username
  let r1 := upsertSecret st0 s1
  let s2 := createSecret "postgres.password" m.ns "POSTGRES_PASSWORD"
    data.postgres.authentication.password
  let r2 := upsertSecret r1.1 s2
  let certDecoded := (b64DecodeString data.postgres.certificate.certificateBase64).1
  let s3 := createSecret "postgres.certificate-data" m.ns "POSTGRES_CERTIFICATE_DATA" certDecoded
  let r3 := upsertSecret r2.1 s3
  match data.postgres.hosts with
  | [] => ⟨r3.1, [r1.2, r2.2, r3.2], .panicked indexOutOfRangeMsg⟩
  | host0 :: _ =>
    let s4 := createSecret "postgres.url" m.ns "POSTGRES_URL"
      (postgresUrlString host0 data.postgres.database)
    let r4 := upsertSecret r3.1 s4
    let r5 := upsertJob r4.1 (createPostgresJob m.ns)
    reconcileDeployment r5.1 m [r1.2, r2.2, r3.2, r4.2, r5.2]

/-- Go method Reconcile(ctx, req): fetch the application (NotFound
returns an empty result with nil error, another error is surfaced);
fetch the credential secret named Spec.PostgresSecretName in the
application's namespace (NotFound returns RequeueAfter 300 seconds,
another error is surfaced); unmarshal its connection payload (failure
surfaces the unmarshal error); then run the derived-resource steps. -/
def reconcile (st : ClusterState) (reqName reqNs : String) : ReconcileResult :=
  match st.apps (reqName, reqNs) with
  | .notFound => ⟨st, [], .ok { requeue := false, requeueAfterSeconds := 0 }⟩
  | .failure e => ⟨st, [], .err e⟩
  | .found memcached =>
    match st.secrets (memcached.postgresSecretName, memcached.ns) with
    | .notFound => ⟨st, [], .ok { requeue := false, requeueAfterSeconds := 300 }⟩
    | .failure e => ⟨st, [], .err e⟩
    | .found secret0 =>
      match jsonUnmarshal (connectionPayload secret0) with
      | .error e => ⟨st, [], .err e⟩
      | .ok data => reconcileAfterParse st memcached data

/-- Extracts the secret written by a write op, when it is one. -/
def secretWritten : WriteOp → Option SecretRes
  | .createSecretOp s => some s
  | .updateSecretOp s => some s
  | _ => none

/-- Extracts the job written by a write op, when it is one. -/
def jobWritten : WriteOp → Option JobRes
  | .createJobOp j => some j
  | .updateJobOp j => some j
  | _ => none

/-- Extracts the deployment written by a write op, when it is one. -/
def deploymentWritten : WriteOp → Option DeploymentRes
  | .createDeploymentOp d => some d
  | .updateDeploymentOp d => some d
  | _ => none

/-- Fixture application used by the concrete witnesses: tenant app1 in
namespace ns1, desired size 5, credential secret named binding. -/
def wApp : ECommerceApplication :=
  { name := "app1", ns := "ns1", size := 5, postgresSecretName := "binding", tenantName := "t1" }

/-- Fixture binding payload with one endpoint db.local:5432, database
appdb and the base64 encoding of CERT. -/
def wData : PostgresBindingJSON :=
  { postgres :=
    { authentication := { method := "direct", password := "pw", username := "user" }
      certificate := { certificateAuthority := "", certificateBase64 := "Q0VSVA==", name := "" }
      composed := []
      database := "appdb"
      hosts := [{ hostname := "db.local", port := 5432 }]
      path := ""
      queryOptions := { sslMode := "verify-full" }
      scheme := "postgresql"
      typeStr := "postgresql" } }

/-- Fixture credential secret holding the well-formed binding payload
under the connection key. -/
def wCredSecret : SecretRes :=
  { name := "binding", ns := "ns1", data := [("connection", .wellFormed wData)]
    stringData := [], immutable := false, typeStr := "Opaque" }

/-- Fixture store for the wait case: the application exists but no
secret at all does, in particular not the credential secret. -/
def wStoreNoCred : ClusterState :=
  { apps := fun k => if k = ("app1", "ns1") then .found wApp else .notFound
    secrets := fun _ => .notFound
    jobs := fun _ => .notFound
    deployments := fun _ => .notFound }

/-- Fixture credential secret whose connection payload does not
unmarshal. -/
def wBadSecret : SecretRes :=
  { name := "binding", ns := "ns1", data := [("connection", .malformed "oops")]
    stringData := [], immutable := false, typeStr := "Opaque" }

/-- Fixture store for the malformed-payload case. -/
def wStoreBadPayload : ClusterState :=
  { apps := fun k => if k = ("app1", "ns1") then .found wApp else .notFound
    secrets := fun k => if k = ("binding", "ns1") then .found wBadSecret else .notFound
    jobs := fun _ => .notFound
    deployments := fun _ => .notFound }

/-- Fixture deployment already present in the store with replica count
2, drifted from the desired size 5. -/
def wDep2 : DeploymentRes :=
  { name := "app1", ns := "ns1", ownerReferences := ["app1"], replicas := 2
    selectorLabels := labelsForMemcached "app1", templateLabels := labelsForMemcached "app1"
    containerImage := "quay.io/nheidloff/service-catalog:latest" }

/-- Fixture store for the replica-drift case: application, credential
secret and a drifted deployment all present. -/
def wStoreDrift : ClusterState :=
  { apps := fun k => if k = ("app1", "ns1") then .found wApp else .notFound
    secrets := fun k => if k = ("binding", "ns1") then .found wCredSecret else .notFound
    jobs := fun _ => .notFound
    deployments := fun k => if k = ("app1", "ns1") then .found wDep2 else .notFound }

/-- Fixture store with application and credential secret present and no
derived resource yet. -/
def wStoreFresh : ClusterState :=
  { apps := fun k => if k = ("app1", "ns1") then .found wApp else .notFound
    secrets := fun k => if k = ("binding", "ns1") then .found wCredSecret else .notFound
    jobs := fun _ => .notFound
    deployments := fun _ => .notFound }

/-- Fixture binding payload whose certificate_base64 is not valid
base64. -/
def wDataBadCert : PostgresBindingJSON :=
  { postgres := { wData.postgres with
      certificate := { certificateAuthority := "", certificateBase64 := "!!!", name := "" } } }

/-- Fixture credential secret holding the payload with the invalid
certificate. -/
def wBadCertSecret : SecretRes :=
  { name := "binding", ns := "ns1", data := [("connection", .wellFormed wDataBadCert)]
    stringData := [], immutable := false, typeStr := "Opaque" }

/-- Fixture deployment already converged to the desired size 5. -/
def wDep5 : DeploymentRes := { wDep2 with replicas := 5 }

/-- Fixture store for the invalid-certificate case: application,
credential secret with undecodable certificate, converged deployment. -/
def wStoreBadCert : ClusterState :=
  { apps := fun k => if k = ("app1", "ns1") then .found wApp else .notFound
    secrets := fun k => if k = ("binding", "ns1") then .found wBadCertSecret else .notFound
    jobs := fun _ => .notFound
    deployments := fun k => if k = ("app1", "ns1") then .found wDep5 else .notFound }

/-- Fixture binding payload with an empty endpoint list. -/
def wDataNoHosts : PostgresBindingJSON :=
  { postgres := { wData.postgres with hosts := [] } }

/-- Fixture credential secret holding the payload with no endpoint. -/
def wNoHostsSecret : SecretRes :=
  { name := "binding", ns := "ns1", data := [("connection", .wellFormed wDataNoHosts)]
    stringData := [], immutable := false, typeStr := "Opaque" }

/-- Fixture store for the empty-endpoint case. -/
def wStoreNoHosts : ClusterState :=
  { apps := fun k => if k = ("app1", "ns1") then .found wApp else .notFound
    secrets := fun k => if k = ("binding", "ns1") then .found wNoHostsSecret else .notFound
    jobs := fun _ => .notFound
    deployments := fun _ => .notFound }

/-- Fixture store whose Gets at the postgres.username secret key and at
the job key fail with an error other than NotFound. -/
def wStoreGetErr : ClusterState :=
  { apps := fun _ => .notFound
    secrets := fun k => if k = ("postgres.username", "ns1") then .failure "boom" else .notFound
    jobs := fun k => if k = ("pg", "default") then .failure "boom" else .notFound
    deployments := fun _ => .notFound }

theorem secretWritten_upsertSecret (st : ClusterState) (s : SecretRes) :
    secretWritten (upsertSecret st s).2 = some s := by
  unfold upsertSecret
  split <;> rfl

theorem jobWritten_upsertSecret (st : ClusterState) (s : SecretRes) :
    jobWritten (upsertSecret st s).2 = none := by
  unfold upsertSecret
  split <;> rfl

theorem deploymentWritten_upsertSecret (st : ClusterState) (s : SecretRes) :
    deploymentWritten (upsertSecret st s).2 = none := by
  unfold upsertSecret
  split <;> rfl

theorem secretWritten_upsertJob (st : ClusterState) (j : JobRes) :
    secretWritten (upsertJob st j).2 = none := by
  unfold upsertJob
  split <;> rfl

theorem deploymentWritten_upsertJob (st : ClusterState) (j : JobRes) :
    deploymentWritten (upsertJob st j).2 = none := by
  unfold upsertJob
  split <;> rfl

theorem reconcileDeployment_filterMap_secret (st : ClusterState) (m : ECommerceApplication)
    (ws : List WriteOp) :
    (reconcileDeployment st m ws).writes.filterMap secretWritten = ws.filterMap secretWritten := by
  unfold reconcileDeployment
  cases st.deployments (m.name, m.ns) with
  | found d =>
    simp only
    split
    · rfl
    · simp [List.filterMap_append, secretWritten]
  | notFound => simp [List.filterMap_append, secretWritten]
  | failure e => rfl

theorem reconcileDeployment_filterMap_job (st : ClusterState) (m : ECommerceApplication)
    (ws : List WriteOp) :
    (reconcileDeployment st m ws).writes.filterMap jobWritten = ws.filterMap jobWritten := by
  unfold reconcileDeployment
  cases st.deployments (m.name, m.ns) with
  | found d =>
    simp only
    split
    · rfl
    · simp [List.filterMap_append, jobWritten]
  | notFound => simp [List.filterMap_append, jobWritten]
  | failure e => rfl

theorem reconcileDeployment_not_panicked (st : ClusterState) (m : ECommerceApplication)
    (ws : List WriteOp) (msg : String) :
    (reconcileDeployment st m ws).outcome ≠ .panicked msg := by
  unfold reconcileDeployment
  cases st.deployments (m.name, m.ns) with
  | found d =>
    simp only
    split <;> simp
  | notFound => simp
  | failure e => simp

/-- C3: when the DesiredStateObject exists but the CredentialSourceRecord
named by credentialSourceName is absent from its namespace, reconcile
returns RequeueAfter 300 seconds, performs no writes, and leaves the
store untouched (no NormalizedSecret, no InitJobRecord, no
WorkloadRecord is created or updated). -/
theorem reconcile_waits_for_credential (st : ClusterState) (rn rns : String)
    (m : ECommerceApplication)
    (happ : st.apps (rn, rns) = .found m)
    (hsec : st.secrets (m.postgresSecretName, m.ns) = .notFound) :
    reconcile st rn rns = ⟨st, [], .ok { requeue := false, requeueAfterSeconds := 300 }⟩ := by
  simp only [reconcile, happ, hsec]

/-- Witness for C3 on the concrete fixture store. -/
theorem reconcile_waits_for_credential_witness :
    reconcile wStoreNoCred "app1" "ns1" =
      ⟨wStoreNoCred, [], .ok { requeue := false, requeueAfterSeconds := 300 }⟩ :=
  reconcile_waits_for_credential wStoreNoCred "app1" "ns1" wApp (by decide) rfl

/-- C4: when the CredentialSourceRecord exists but its payload does not
unmarshal, reconcile returns the unmarshal error, performs no writes,
and leaves the store exactly as it found it (atomicity on parse
error): none of the four NormalizedSecrets is created. -/
theorem reconcile_malformed_binding (st : ClusterState) (rn rns : String)
    (m : ECommerceApplication) (sec : SecretRes) (e : String)
    (happ : st.apps (rn, rns) = .found m)
    (hsec : st.secrets (m.postgresSecretName, m.ns) = .found sec)
    (hparse : jsonUnmarshal (connectionPayload sec) = .error e) :
    reconcile st rn rns = ⟨st, [], .err e⟩ := by
  simp only [reconcile, happ, hsec, hparse]

/-- Witness for C4 on the concrete fixture store with a malformed
payload. -/
theorem reconcile_malformed_binding_witness :
    reconcile wStoreBadPayload "app1" "ns1" =
      ⟨wStoreBadPayload, [], .err "could not unmarshal: oops"⟩ :=
  reconcile_malformed_binding wStoreBadPayload "app1" "ns1" wApp wBadSecret
    "could not unmarshal: oops" (by decide) (by decide) rfl

theorem upsertSecret_fst (st : ClusterState) (s : SecretRes) :
    (upsertSecret st s).1 = putSecret st s := rfl

theorem upsertJob_fst (st : ClusterState) (j : JobRes) :
    (upsertJob st j).1 = putJob st (jobUpdateContent st j) := rfl

theorem putSecret_deployments (st : ClusterState) (s : SecretRes) :
    (putSecret st s).deployments = st.deployments := rfl

theorem putJob_deployments (st : ClusterState) (j : JobRes) :
    (putJob st j).deployments = st.deployments := rfl

theorem putSecret_apps (st : ClusterState) (s : SecretRes) :
    (putSecret st s).apps = st.apps := rfl

theorem putJob_apps (st : ClusterState) (j : JobRes) :
    (putJob st j).apps = st.apps := rfl

theorem putSecret_jobs (st : ClusterState) (s : SecretRes) :
    (putSecret st s).jobs = st.jobs := rfl

theorem putJob_secrets (st : ClusterState) (j : JobRes) :
    (putJob st j).secrets = st.secrets := rfl

theorem putDeployment_apps (st : ClusterState) (d : DeploymentRes) :
    (putDeployment st d).apps = st.apps := rfl

theorem putDeployment_secrets (st : ClusterState) (d : DeploymentRes) :
    (putDeployment st d).secrets = st.secrets := rfl

theorem putDeployment_jobs (st : ClusterState) (d : DeploymentRes) :
    (putDeployment st d).jobs = st.jobs := rfl

/-- C1: when a WorkloadRecord already exists for the DesiredStateObject
and its replica count differs from Spec.Size, reconcile rewrites the
replica count to Spec.Size (the single deployment write of the run)
and returns RequeueAfter 60 seconds; when the replica count already
equals Spec.Size, reconcile writes no deployment at all and returns an
empty result with no requeue.  The hypotheses fix the happy path up to
the deployment step and require the stored deployment to carry its own
key, as any object read from the store does. -/
theorem reconcile_replica_convergence (st : ClusterState) (rn rns : String)
    (m : ECommerceApplication) (sec : SecretRes) (data : PostgresBindingJSON)
    (h0 : Hosts) (t : List Hosts) (d : DeploymentRes)
    (happ : st.apps (rn, rns) = .found m)
    (hsec : st.secrets (m.postgresSecretName, m.ns) = .found sec)
    (hparse : jsonUnmarshal (connectionPayload sec) = .ok data)
    (hhosts : data.postgres.hosts = h0 :: t)
    (hdep : st.deployments (m.name, m.ns) = .found d)
    (hdn : d.name = m.name) (hdns : d.ns = m.ns) :
    (d.replicas ≠ m.size →
      (reconcile st rn rns).outcome = .ok { requeue := false, requeueAfterSeconds := 60 } ∧
      (reconcile st rn rns).state.deployments (m.name, m.ns) =
        .found { d with replicas := m.size } ∧
      (reconcile st rn rns).writes.filterMap deploymentWritten =
        [{ d with replicas := m.size }]) ∧
    (d.replicas = m.size →
      (reconcile st rn rns).outcome = .ok { requeue := false, requeueAfterSeconds := 0 } ∧
      (reconcile st rn rns).writes.filterMap deploymentWritten = [] ∧
      (reconcile st rn rns).state.deployments = st.deployments) := by
  have hred : reconcile st rn rns =
      reconcileAfterParse st m data := by
    simp only [reconcile, happ, hsec, hparse]
  rw [hred]
  simp only [reconcileAfterParse, hhosts, upsertSecret_fst, upsertJob_fst,
    reconcileDeployment, putSecret_deployments, putJob_deployments, hdep]
  constructor
  · intro hne
    simp only [if_neg hne]
    refine ⟨?_, ?_, ?_⟩
    · trivial
    · simp only [putDeployment]
      have hkey : (m.name, m.ns) =
          (DeploymentRes.name { d with replicas := m.size },
           DeploymentRes.ns { d with replicas := m.size }) := by
        simp [hdn, hdns]
      simp [hkey]
    · simp [List.filterMap_append, List.filterMap_cons,
        deploymentWritten_upsertSecret, deploymentWritten_upsertJob]
      rfl
  · intro heq
    simp only [if_pos heq]
    refine ⟨?_, ?_, ?_⟩
    · trivial
    · simp [List.filterMap_cons,
        deploymentWritten_upsertSecret, deploymentWritten_upsertJob]
    · simp only [putSecret_deployments, putJob_deployments]

/-- Witness for C1 on the concrete drifted fixture store (replicas 2,
size 5). -/
theorem reconcile_replica_convergence_witness :
    (reconcile wStoreDrift "app1" "ns1").outcome =
      .ok { requeue := false, requeueAfterSeconds := 60 } ∧
    (reconcile wStoreDrift "app1" "ns1").state.deployments ("app1", "ns1") =
      .found { wDep2 with replicas := 5 } ∧
    (reconcile wStoreDrift "app1" "ns1").writes.filterMap deploymentWritten =
      [{ wDep2 with replicas := 5 }] :=
  (reconcile_replica_convergence wStoreDrift "app1" "ns1" wApp wCredSecret wData
    { hostname := "db.local", port := 5432 } [] wDep2
    (by decide) (by decide) rfl rfl (by decide) rfl rfl).1 (by decide)

/-- C2: with certificate_base64 the base64 encoding of CERT, first
endpoint db.local:5432 and database appdb, the run writes exactly four
secrets, whose single StringData values are the raw username, the raw
password, the decoded string CERT, and the jdbc URL; the URL is built
from the first endpoint only - the tail t of the host list does not
appear in the conclusion. -/
theorem reconcile_secret_projection (st : ClusterState) (rn rns : String)
    (m : ECommerceApplication) (sec : SecretRes) (data : PostgresBindingJSON)
    (t : List Hosts)
    (happ : st.apps (rn, rns) = .found m)
    (hsec : st.secrets (m.postgresSecretName, m.ns) = .found sec)
    (hparse : jsonUnmarshal (connectionPayload sec) = .ok data)
    (hcert : data.postgres.certificate.certificateBase64 = "Q0VSVA==")
    (hhosts : data.postgres.hosts = { hostname := "db.local", port := 5432 } :: t)
    (hdb : data.postgres.database = "appdb") :
    (reconcile st rn rns).writes.filterMap secretWritten =
      [createSecret "postgres.username" m.ns "POSTGRES_USERNAME"
         data.postgres.authentication.username,
       createSecret "postgres.password" m.ns "POSTGRES_PASSWORD"
         data.postgres.authentication.password,
       createSecret "postgres.certificate-data" m.ns "POSTGRES_CERTIFICATE_DATA" "CERT",
       createSecret "postgres.url" m.ns "POSTGRES_URL"
         "jdbc:postgresql://db.local:5432/appdb?sslmode=verify-full&sslrootcert=/cloud-postgres-cert"] := by
  have hred : reconcile st rn rns = reconcileAfterParse st m data := by
    simp only [reconcile, happ, hsec, hparse]
  have hc : (b64DecodeString "Q0VSVA==").1 = "CERT" := by decide
  have hu : postgresUrlString { hostname := "db.local", port := 5432 } "appdb" =
      "jdbc:postgresql://db.local:5432/appdb?sslmode=verify-full&sslrootcert=/cloud-postgres-cert" := by
    decide
  rw [hred]
  simp only [reconcileAfterParse, hhosts, hcert, hdb, hc, hu, upsertSecret_fst, upsertJob_fst]
  rw [reconcileDeployment_filterMap_secret]
  simp [List.filterMap_cons, secretWritten_upsertSecret, secretWritten_upsertJob]

/-- Witness for C2 on the concrete fixture store. -/
theorem reconcile_secret_projection_witness :
    (reconcile wStoreFresh "app1" "ns1").writes.filterMap secretWritten =
      [createSecret "postgres.username" "ns1" "POSTGRES_USERNAME" "user",
       createSecret "postgres.password" "ns1" "POSTGRES_PASSWORD" "pw",
       createSecret "postgres.certificate-data" "ns1" "POSTGRES_CERTIFICATE_DATA" "CERT",
       createSecret "postgres.url" "ns1" "POSTGRES_URL"
         "jdbc:postgresql://db.local:5432/appdb?sslmode=verify-full&sslrootcert=/cloud-postgres-cert"] :=
  reconcile_secret_projection wStoreFresh "app1" "ns1" wApp wCredSecret wData []
    (by decide) (by decide) rfl rfl rfl rfl

theorem jobUpdateContent_notFound (st : ClusterState) (j : JobRes)
    (h : st.jobs (j.name, j.ns) = .notFound) : jobUpdateContent st j = j := by
  unfold jobUpdateContent
  rw [h]

theorem upsertJob_snd_create (st : ClusterState) (j : JobRes)
    (h : st.jobs (j.name, j.ns) = .notFound) :
    (upsertJob st j).2 = .createJobOp j := by
  unfold upsertJob
  rw [h]
  rfl

theorem putSecretChain_jobs (st : ClusterState) (s1 s2 s3 s4 : SecretRes) :
    (putSecret (putSecret (putSecret (putSecret st s1) s2) s3) s4).jobs = st.jobs := by
  simp only [putSecret_jobs]

theorem reconcileDeployment_state_jobs (st : ClusterState) (m : ECommerceApplication)
    (ws : List WriteOp) :
    (reconcileDeployment st m ws).state.jobs = st.jobs := by
  unfold reconcileDeployment
  cases st.deployments (m.name, m.ns) with
  | found d =>
    simp only
    split <;> rfl
  | notFound => rfl
  | failure e => rfl

theorem reconcileAfterParse_fresh_job_dep (st : ClusterState) (m : ECommerceApplication)
    (data : PostgresBindingJSON) (h0 : Hosts) (t : List Hosts)
    (hhosts : data.postgres.hosts = h0 :: t)
    (hjob : st.jobs ("pg", "default") = .notFound)
    (hdep : st.deployments (m.name, m.ns) = .notFound) :
    (reconcileAfterParse st m data).writes.filterMap jobWritten = [createPostgresJob m.ns] ∧
    (reconcileAfterParse st m data).writes.filterMap deploymentWritten =
      [deploymentForMemcached m] ∧
    (reconcileAfterParse st m data).state.jobs ("pg", "default") =
      .found (createPostgresJob m.ns) ∧
    (reconcileAfterParse st m data).outcome = .ok { requeue := true, requeueAfterSeconds := 0 } := by
  have hj4 : ∀ s1 s2 s3 s4 : SecretRes,
      (putSecret (putSecret (putSecret (putSecret st s1) s2) s3) s4).jobs
        ((createPostgresJob m.ns).name, (createPostgresJob m.ns).ns) = .notFound := by
    intro s1 s2 s3 s4
    rw [putSecretChain_jobs]
    exact hjob
  simp only [reconcileAfterParse, hhosts, upsertSecret_fst]
  rw [upsertJob_fst, jobUpdateContent_notFound _ _ (hj4 _ _ _ _),
    upsertJob_snd_create _ _ (hj4 _ _ _ _)]
  simp only [reconcileDeployment, putJob_deployments, putSecret_deployments, hdep]
  refine ⟨?_, ?_, ?_, ?_⟩
  · simp only [List.filterMap_append, List.filterMap_cons, jobWritten_upsertSecret]
    rfl
  · simp only [List.filterMap_append, List.filterMap_cons, deploymentWritten_upsertSecret]
    rfl
  · rfl
  · trivial

/-- C6: under the happy path on a store holding neither the job nor the
deployment yet, the run's only deployment write is the newly built
deploymentForMemcached, which carries an owner reference to the
DesiredStateObject, while the run's only job write is the newly built
createPostgresJob, whose OwnerReferences list is empty. -/
theorem ownership_references (st : ClusterState) (rn rns : String)
    (m : ECommerceApplication) (sec : SecretRes) (data : PostgresBindingJSON)
    (h0 : Hosts) (t : List Hosts)
    (happ : st.apps (rn, rns) = .found m)
    (hsec : st.secrets (m.postgresSecretName, m.ns) = .found sec)
    (hparse : jsonUnmarshal (connectionPayload sec) = .ok data)
    (hhosts : data.postgres.hosts = h0 :: t)
    (hjob : st.jobs ("pg", "default") = .notFound)
    (hdep : st.deployments (m.name, m.ns) = .notFound) :
    (reconcile st rn rns).writes.filterMap deploymentWritten = [deploymentForMemcached m] ∧
    (deploymentForMemcached m).ownerReferences = [m.name] ∧
    (reconcile st rn rns).writes.filterMap jobWritten = [createPostgresJob m.ns] ∧
    (createPostgresJob m.ns).ownerReferences = [] := by
  have hred : reconcile st rn rns = reconcileAfterParse st m data := by
    simp only [reconcile, happ, hsec, hparse]
  obtain ⟨hjw, hdw, hstj, hout⟩ :=
    reconcileAfterParse_fresh_job_dep st m data h0 t hhosts hjob hdep
  exact ⟨by rw [hred]; exact hdw, rfl, by rw [hred]; exact hjw, rfl⟩

/-- Witness for C6 on the concrete fresh fixture store. -/
theorem ownership_references_witness :
    (reconcile wStoreFresh "app1" "ns1").writes.filterMap deploymentWritten =
      [deploymentForMemcached wApp] ∧
    (deploymentForMemcached wApp).ownerReferences = ["app1"] ∧
    (reconcile wStoreFresh "app1" "ns1").writes.filterMap jobWritten =
      [createPostgresJob "ns1"] ∧
    (createPostgresJob "ns1").ownerReferences = [] :=
  ownership_references wStoreFresh "app1" "ns1" wApp wCredSecret wData
    ⟨"db.local", 5432⟩ [] (by decide) (by decide) rfl rfl rfl rfl

/-- C9: on every happy-path run reaching the init-job step on a store
not yet holding the job, the single job write is createPostgresJob of
the tenant namespace, whose metadata name is the fixed string pg and
whose metadata namespace is the platform default namespace - not the
tenant namespace - for every DesiredStateObject m, and after the run
the store holds that job under the key (pg, default). -/
theorem init_job_fixed_identity (st : ClusterState) (rn rns : String)
    (m : ECommerceApplication) (sec : SecretRes) (data : PostgresBindingJSON)
    (h0 : Hosts) (t : List Hosts)
    (happ : st.apps (rn, rns) = .found m)
    (hsec : st.secrets (m.postgresSecretName, m.ns) = .found sec)
    (hparse : jsonUnmarshal (connectionPayload sec) = .ok data)
    (hhosts : data.postgres.hosts = h0 :: t)
    (hjob : st.jobs ("pg", "default") = .notFound) :
    (reconcile st rn rns).writes.filterMap jobWritten = [createPostgresJob m.ns] ∧
    (createPostgresJob m.ns).name = "pg" ∧
    (createPostgresJob m.ns).ns = "default" ∧
    (reconcile st rn rns).state.jobs ("pg", "default") = .found (createPostgresJob m.ns) := by
  have hred : reconcile st rn rns = reconcileAfterParse st m data := by
    simp only [reconcile, happ, hsec, hparse]
  have hj4 : ∀ s1 s2 s3 s4 : SecretRes,
      (putSecret (putSecret (putSecret (putSecret st s1) s2) s3) s4).jobs
        ((createPostgresJob m.ns).name, (createPostgresJob m.ns).ns) = .notFound := by
    intro s1 s2 s3 s4
    rw [putSecretChain_jobs]
    exact hjob
  rw [hred]
  simp only [reconcileAfterParse, hhosts, upsertSecret_fst]
  rw [upsertJob_fst, jobUpdateContent_notFound _ _ (hj4 _ _ _ _),
    upsertJob_snd_create _ _ (hj4 _ _ _ _)]
  refine ⟨?_, rfl, rfl, ?_⟩
  · rw [reconcileDeployment_filterMap_job]
    simp only [List.filterMap_cons, jobWritten_upsertSecret]
    rfl
  · rw [reconcileDeployment_state_jobs]
    rfl

/-- Witness for C9 on the concrete fresh fixture store, whose tenant
namespace ns1 differs from the default namespace. -/
theorem init_job_fixed_identity_witness :
    (reconcile wStoreFresh "app1" "ns1").writes.filterMap jobWritten =
      [createPostgresJob "ns1"] ∧
    (createPostgresJob "ns1").name = "pg" ∧
    (createPostgresJob "ns1").ns = "default" ∧
    (reconcile wStoreFresh "app1" "ns1").state.jobs ("pg", "default") =
      .found (createPostgresJob "ns1") :=
  init_job_fixed_identity wStoreFresh "app1" "ns1" wApp wCredSecret wData
    ⟨"db.local", 5432⟩ [] (by decide) (by decide) rfl rfl rfl

/-- C5 (code-bug evaluation): on a certificate_base64 that is not valid
base64 the decode reports failure, yet reconcile aborts nothing and
surfaces no error: it completes with an empty result and nil error and
writes the postgres.certificate-data secret with the empty string as
its value, silently substituting it for the undecodable certificate
instead of failing with a decode error. -/
theorem certificate_decode_error_swallowed :
    (b64DecodeString "!!!").2 = false ∧
    (reconcile wStoreBadCert "app1" "ns1").outcome =
      .ok { requeue := false, requeueAfterSeconds := 0 } ∧
    ((reconcile wStoreBadCert "app1" "ns1").writes.filterMap secretWritten).map
        (fun s => s.stringData) =
      [[("POSTGRES_USERNAME", "user")], [("POSTGRES_PASSWORD", "pw")],
       [("POSTGRES_CERTIFICATE_DATA", "")],
       [("POSTGRES_URL",
         "jdbc:postgresql://db.local:5432/appdb?sslmode=verify-full&sslrootcert=/cloud-postgres-cert")]] := by
  decide

/-- C8: URL derivation needs at least one endpoint.  With a non-empty
endpoint list the first-endpoint access is in bounds, all four secrets
(including postgres.url) are written and no panic occurs; with an
empty list the run dies in the unguarded index-out-of-range panic,
which is not a typed error return - the outcome equals the panic and
differs from every error outcome. -/
theorem url_requires_endpoint (st : ClusterState) (rn rns : String)
    (m : ECommerceApplication) (sec : SecretRes) (data : PostgresBindingJSON)
    (happ : st.apps (rn, rns) = .found m)
    (hsec : st.secrets (m.postgresSecretName, m.ns) = .found sec)
    (hparse : jsonUnmarshal (connectionPayload sec) = .ok data) :
    (data.postgres.hosts = [] →
      (reconcile st rn rns).outcome = .panicked indexOutOfRangeMsg ∧
      ∀ e, (reconcile st rn rns).outcome ≠ .err e) ∧
    (∀ h0 t, data.postgres.hosts = h0 :: t →
      ((reconcile st rn rns).writes.filterMap secretWritten).map (fun s => s.name) =
        ["postgres.username", "postgres.password", "postgres.certificate-data",
         "postgres.url"] ∧
      ∀ msg, (reconcile st rn rns).outcome ≠ .panicked msg) := by
  have hred : reconcile st rn rns = reconcileAfterParse st m data := by
    simp only [reconcile, happ, hsec, hparse]
  rw [hred]
  constructor
  · intro hempty
    simp only [reconcileAfterParse, hempty]
    refine ⟨by trivial, ?_⟩
    intro e h
    simp at h
  · intro h0 t hcons
    simp only [reconcileAfterParse, hcons, upsertSecret_fst, upsertJob_fst]
    constructor
    · rw [reconcileDeployment_filterMap_secret]
      simp only [List.filterMap_cons, secretWritten_upsertSecret, secretWritten_upsertJob]
      rfl
    · intro msg
      exact reconcileDeployment_not_panicked _ _ _ msg

/-- Witness for C8 on the concrete fixture store with an empty
endpoint list: the run panics and returns no typed error. -/
theorem url_requires_endpoint_witness :
    (reconcile wStoreNoHosts "app1" "ns1").outcome = .panicked indexOutOfRangeMsg ∧
    ∀ e, (reconcile wStoreNoHosts "app1" "ns1").outcome ≠ .err e :=
  (url_requires_endpoint wStoreNoHosts "app1" "ns1" wApp wNoHostsSecret wDataNoHosts
    (by decide) (by decide) rfl).1 rfl

/-- C10: in the secret and job upsert steps, a pre-write Get failure
other than NotFound is not surfaced: the branch condition (err non-nil
and IsNotFound) is false, so the update branch runs, the update is
attempted anyway (the store write still happens), and the only error
the step can surface is the update's own error. -/
theorem upsert_get_error_not_surfaced (e : String) (ce ue : Option String)
    (st : ClusterState) (s : SecretRes) (j : JobRes)
    (hs : st.secrets (s.name, s.ns) = .failure e)
    (hj : st.jobs (j.name, j.ns) = .failure e) :
    upsertStepError (st.secrets (s.name, s.ns)) ce ue = ue ∧
    (upsertSecret st s).2 = .updateSecretOp s ∧
    (upsertSecret st s).1 = putSecret st s ∧
    upsertStepError (st.jobs (j.name, j.ns)) ce ue = ue ∧
    (upsertJob st j).2 = .updateJobOp j ∧
    (upsertJob st j).1 = putJob st j := by
  have hjc : jobUpdateContent st j = j := by
    unfold jobUpdateContent
    rw [hj]
  refine ⟨?_, ?_, rfl, ?_, ?_, ?_⟩
  · rw [hs]
    rfl
  · unfold upsertSecret
    rw [hs]
    rfl
  · rw [hj]
    rfl
  · unfold upsertJob
    rw [hj, hjc]
    rfl
  · rw [upsertJob_fst, hjc]

/-- Witness for C10 on the concrete store with failing Gets. -/
theorem upsert_get_error_not_surfaced_witness :
    upsertStepError (wStoreGetErr.secrets ("postgres.username", "ns1")) (some "ce") (some "ue") =
      some "ue" ∧
    (upsertSecret wStoreGetErr (createSecret "postgres.username" "ns1" "POSTGRES_USERNAME" "u")).2 =
      .updateSecretOp (createSecret "postgres.username" "ns1" "POSTGRES_USERNAME" "u") ∧
    (upsertSecret wStoreGetErr (createSecret "postgres.username" "ns1" "POSTGRES_USERNAME" "u")).1 =
      putSecret wStoreGetErr (createSecret "postgres.username" "ns1" "POSTGRES_USERNAME" "u") ∧
    upsertStepError (wStoreGetErr.jobs ("pg", "default")) (some "ce") (some "ue") = some "ue" ∧
    (upsertJob wStoreGetErr (createPostgresJob "ns1")).2 =
      .updateJobOp (createPostgresJob "ns1") ∧
    (upsertJob wStoreGetErr (createPostgresJob "ns1")).1 =
      putJob wStoreGetErr (createPostgresJob "ns1") :=
  upsert_get_error_not_surfaced "boom" (some "ce") (some "ue") wStoreGetErr
    (createSecret "postgres.username" "ns1" "POSTGRES_USERNAME" "u") (createPostgresJob "ns1")
    (by decide) (by decide)

theorem putSecret_secrets_ne (st : ClusterState) (s : SecretRes) (k : String × String)
    (h : k ≠ (s.name, s.ns)) : (putSecret st s).secrets k = st.secrets k := by
  simp [putSecret, h]

theorem putSecret_self (st : ClusterState) (s : SecretRes)
    (h : st.secrets (s.name, s.ns) = .found s) : putSecret st s = st := by
  unfold putSecret
  refine ClusterState.ext ?_ ?_ ?_ ?_ <;> try rfl
  funext k
  by_cases hk : k = (s.name, s.ns)
  · simp [hk, h]
  · simp [hk]

theorem putJob_self (st : ClusterState) (j : JobRes)
    (h : st.jobs (j.name, j.ns) = .found j) : putJob st j = st := by
  unfold putJob
  refine ClusterState.ext ?_ ?_ ?_ ?_ <;> try rfl
  funext k
  by_cases hk : k = (j.name, j.ns)
  · simp [hk, h]
  · simp [hk]

theorem upsertSecret_snd_create (st : ClusterState) (s : SecretRes)
    (h : st.secrets (s.name, s.ns) = .notFound) :
    (upsertSecret st s).2 = .createSecretOp s := by
  unfold upsertSecret
  rw [h]
  rfl

theorem upsertSecret_snd_found (st : ClusterState) (s x : SecretRes)
    (h : st.secrets (s.name, s.ns) = .found x) :
    (upsertSecret st s).2 = .updateSecretOp s := by
  unfold upsertSecret
  rw [h]
  rfl

theorem jobUpdateContent_found (st : ClusterState) (j x : JobRes)
    (h : st.jobs (j.name, j.ns) = .found x) : jobUpdateContent st j = x := by
  unfold jobUpdateContent
  rw [h]

theorem upsertJob_snd_found (st : ClusterState) (j x : JobRes)
    (h : st.jobs (j.name, j.ns) = .found x) :
    (upsertJob st j).2 = .updateJobOp x := by
  unfold upsertJob jobUpdateContent
  rw [h]
  rfl

theorem reconcile_fresh (st : ClusterState) (rn rns : String)
    (m : ECommerceApplication) (sec : SecretRes) (data : PostgresBindingJSON)
    (h0 : Hosts) (t : List Hosts)
    (happ : st.apps (rn, rns) = .found m)
    (hsec : st.secrets (m.postgresSecretName, m.ns) = .found sec)
    (hparse : jsonUnmarshal (connectionPayload sec) = .ok data)
    (hhosts : data.postgres.hosts = h0 :: t)
    (hs1 : st.secrets ("postgres.username", m.ns) = .notFound)
    (hs2 : st.secrets ("postgres.password", m.ns) = .notFound)
    (hs3 : st.secrets ("postgres.certificate-data", m.ns) = .notFound)
    (hs4 : st.secrets ("postgres.url", m.ns) = .notFound)
    (hjob : st.jobs ("pg", "default") = .notFound)
    (hdep : st.deployments (m.name, m.ns) = .notFound) :
    reconcile st rn rns =
      ⟨putDeployment (putJob (putSecret (putSecret (putSecret (putSecret st
          (createSecret "postgres.username" m.ns "POSTGRES_USERNAME"
            data.postgres.authentication.username))
          (createSecret "postgres.password" m.ns "POSTGRES_PASSWORD"
            data.postgres.authentication.password))
          (createSecret "postgres.certificate-data" m.ns "POSTGRES_CERTIFICATE_DATA"
            (b64DecodeString data.postgres.certificate.certificateBase64).1))
          (createSecret "postgres.url" m.ns "POSTGRES_URL"
            (postgresUrlString h0 data.postgres.database)))
          (createPostgresJob m.ns)) (deploymentForMemcached m),
       [.createSecretOp (createSecret "postgres.username" m.ns "POSTGRES_USERNAME"
          data.postgres.authentication.username),
        .createSecretOp (createSecret "postgres.password" m.ns "POSTGRES_PASSWORD"
          data.postgres.authentication.password),
        .createSecretOp (createSecret "postgres.certificate-data" m.ns
          "POSTGRES_CERTIFICATE_DATA" (b64DecodeString data.postgres.certificate.certificateBase64).1),
        .createSecretOp (createSecret "postgres.url" m.ns "POSTGRES_URL"
          (postgresUrlString h0 data.postgres.database)),
        .createJobOp (createPostgresJob m.ns),
        .createDeploymentOp (deploymentForMemcached m)],
       .ok { requeue := true, requeueAfterSeconds := 0 }⟩ := by
  have hred : reconcile st rn rns = reconcileAfterParse st m data := by
    simp only [reconcile, happ, hsec, hparse]
  rw [hred]
  simp [reconcileAfterParse, hhosts, upsertSecret, upsertJob, jobUpdateContent, putSecret, putJob,
    putDeployment, upsertTakesCreate, reconcileDeployment, createSecret, createPostgresJob,
    deploymentForMemcached, labelsForMemcached, hs1, hs2, hs3, hs4, hjob, hdep]

theorem reconcile_converged (st : ClusterState) (rn rns : String)
    (m : ECommerceApplication) (sec : SecretRes) (data : PostgresBindingJSON)
    (h0 : Hosts) (t : List Hosts) (d : DeploymentRes)
    (happ : st.apps (rn, rns) = .found m)
    (hsec : st.secrets (m.postgresSecretName, m.ns) = .found sec)
    (hparse : jsonUnmarshal (connectionPayload sec) = .ok data)
    (hhosts : data.postgres.hosts = h0 :: t)
    (hs1 : st.secrets ("postgres.username", m.ns) =
      .found (createSecret "postgres.username" m.ns "POSTGRES_USERNAME"
        data.postgres.authentication.username))
    (hs2 : st.secrets ("postgres.password", m.ns) =
      .found (createSecret "postgres.password" m.ns "POSTGRES_PASSWORD"
        data.postgres.authentication.password))
    (hs3 : st.secrets ("postgres.certificate-data", m.ns) =
      .found (createSecret "postgres.certificate-data" m.ns "POSTGRES_CERTIFICATE_DATA"
        (b64DecodeString data.postgres.certificate.certificateBase64).1))
    (hs4 : st.secrets ("postgres.url", m.ns) =
      .found (createSecret "postgres.url" m.ns "POSTGRES_URL"
        (postgresUrlString h0 data.postgres.database)))
    (hjob : st.jobs ("pg", "default") = .found (createPostgresJob m.ns))
    (hdep : st.deployments (m.name, m.ns) = .found d)
    (hrep : d.replicas = m.size) :
    (reconcile st rn rns).state = st ∧
    (reconcile st rn rns).writes =
      [.updateSecretOp (createSecret "postgres.username" m.ns "POSTGRES_USERNAME"
         data.postgres.authentication.username),
       .updateSecretOp (createSecret "postgres.password" m.ns "POSTGRES_PASSWORD"
         data.postgres.authentication.password),
       .updateSecretOp (createSecret "postgres.certificate-data" m.ns
         "POSTGRES_CERTIFICATE_DATA" (b64DecodeString data.postgres.certificate.certificateBase64).1),
       .updateSecretOp (createSecret "postgres.url" m.ns "POSTGRES_URL"
         (postgresUrlString h0 data.postgres.database)),
       .updateJobOp (createPostgresJob m.ns)] ∧
    (reconcile st rn rns).outcome = .ok { requeue := false, requeueAfterSeconds := 0 } := by
  have hred : reconcile st rn rns = reconcileAfterParse st m data := by
    simp only [reconcile, happ, hsec, hparse]
  rw [hred]
  simp only [reconcileAfterParse, hhosts, upsertSecret_fst, upsertJob_fst]
  rw [putSecret_self st _ hs1, putSecret_self st _ hs2, putSecret_self st _ hs3,
    putSecret_self st _ hs4, jobUpdateContent_found st _ _ hjob, putJob_self st _ hjob]
  simp only [reconcileDeployment, hdep, hrep, if_true]
  refine ⟨by trivial, ?_, by trivial⟩
  rw [upsertSecret_snd_found st _ _ hs1, upsertSecret_snd_found st _ _ hs2,
    upsertSecret_snd_found st _ _ hs3, upsertSecret_snd_found st _ _ hs4,
    upsertJob_snd_found st _ _ hjob]

/-- C7: starting from a store holding the application and a parsable
credential secret but none of the derived resources, a first reconcile
performs exactly the six creates (four secrets, the job, the
deployment) and a second reconcile on the resulting store leaves the
store unchanged - the same final resource set - while still performing
five writes, each an unconditional update carrying exactly the content
the first run created (no content-diffing short-circuit): the second
run's write list is non-empty even though nothing changed. -/
theorem reconcile_idempotent (st : ClusterState) (rn rns : String)
    (m : ECommerceApplication) (sec : SecretRes) (data : PostgresBindingJSON)
    (h0 : Hosts) (t : List Hosts)
    (happ : st.apps (rn, rns) = .found m)
    (hsec : st.secrets (m.postgresSecretName, m.ns) = .found sec)
    (hparse : jsonUnmarshal (connectionPayload sec) = .ok data)
    (hhosts : data.postgres.hosts = h0 :: t)
    (hs1 : st.secrets ("postgres.username", m.ns) = .notFound)
    (hs2 : st.secrets ("postgres.password", m.ns) = .notFound)
    (hs3 : st.secrets ("postgres.certificate-data", m.ns) = .notFound)
    (hs4 : st.secrets ("postgres.url", m.ns) = .notFound)
    (hjob : st.jobs ("pg", "default") = .notFound)
    (hdep : st.deployments (m.name, m.ns) = .notFound) :
    (reconcile (reconcile st rn rns).state rn rns).state = (reconcile st rn rns).state ∧
    (reconcile st rn rns).writes =
      [.createSecretOp (createSecret "postgres.username" m.ns "POSTGRES_USERNAME"
         data.postgres.authentication.username),
       .createSecretOp (createSecret "postgres.password" m.ns "POSTGRES_PASSWORD"
         data.postgres.authentication.password),
       .createSecretOp (createSecret "postgres.certificate-data" m.ns
         "POSTGRES_CERTIFICATE_DATA" (b64DecodeString data.postgres.certificate.certificateBase64).1),
       .createSecretOp (createSecret "postgres.url" m.ns "POSTGRES_URL"
         (postgresUrlString h0 data.postgres.database)),
       .createJobOp (createPostgresJob m.ns),
       .createDeploymentOp (deploymentForMemcached m)] ∧
    (reconcile (reconcile st rn rns).state rn rns).writes =
      [.updateSecretOp (createSecret "postgres.username" m.ns "POSTGRES_USERNAME"
         data.postgres.authentication.username),
       .updateSecretOp (createSecret "postgres.password" m.ns "POSTGRES_PASSWORD"
         data.postgres.authentication.password),
       .updateSecretOp (createSecret "postgres.certificate-data" m.ns
         "POSTGRES_CERTIFICATE_DATA" (b64DecodeString data.postgres.certificate.certificateBase64).1),
       .updateSecretOp (createSecret "postgres.url" m.ns "POSTGRES_URL"
         (postgresUrlString h0 data.postgres.database)),
       .updateJobOp (createPostgresJob m.ns)] ∧
    (reconcile (reconcile st rn rns).state rn rns).writes ≠ [] := by
  have hfresh := reconcile_fresh st rn rns m sec data h0 t happ hsec hparse hhosts
    hs1 hs2 hs3 hs4 hjob hdep
  have hne1 : (m.postgresSecretName, m.ns) ≠ (("postgres.username" : String), m.ns) := by
    intro h
    rw [h, hs1] at hsec
    cases hsec
  have hne2 : (m.postgresSecretName, m.ns) ≠ (("postgres.password" : String), m.ns) := by
    intro h
    rw [h, hs2] at hsec
    cases hsec
  have hne3 : (m.postgresSecretName, m.ns) ≠ (("postgres.certificate-data" : String), m.ns) := by
    intro h
    rw [h, hs3] at hsec
    cases hsec
  have hne4 : (m.postgresSecretName, m.ns) ≠ (("postgres.url" : String), m.ns) := by
    intro h
    rw [h, hs4] at hsec
    cases hsec
  rw [hfresh]
  dsimp only
  set stF : ClusterState := putDeployment (putJob (putSecret (putSecret (putSecret (putSecret st
      (createSecret "postgres.username" m.ns "POSTGRES_USERNAME"
        data.postgres.authentication.username))
      (createSecret "postgres.password" m.ns "POSTGRES_PASSWORD"
        data.postgres.authentication.password))
      (createSecret "postgres.certificate-data" m.ns "POSTGRES_CERTIFICATE_DATA"
        (b64DecodeString data.postgres.certificate.certificateBase64).1))
      (createSecret "postgres.url" m.ns "POSTGRES_URL"
        (postgresUrlString h0 data.postgres.database)))
      (createPostgresJob m.ns)) (deploymentForMemcached m) with hstF
  have happF : stF.apps (rn, rns) = .found m := by
    rw [hstF]
    simp only [putDeployment_apps, putJob_apps, putSecret_apps]
    exact happ
  have hsecF : stF.secrets (m.postgresSecretName, m.ns) = .found sec := by
    rw [hstF]
    simp only [putDeployment_secrets, putJob_secrets, putSecret, createSecret]
    rw [if_neg hne4, if_neg hne3, if_neg hne2, if_neg hne1]
    exact hsec
  have hs1F : stF.secrets ("postgres.username", m.ns) =
      .found (createSecret "postgres.username" m.ns "POSTGRES_USERNAME"
        data.postgres.authentication.username) := by
    rw [hstF]
    simp [putDeployment_secrets, putJob_secrets, putSecret, createSecret]
  have hs2F : stF.secrets ("postgres.password", m.ns) =
      .found (createSecret "postgres.password" m.ns "POSTGRES_PASSWORD"
        data.postgres.authentication.password) := by
    rw [hstF]
    simp [putDeployment_secrets, putJob_secrets, putSecret, createSecret]
  have hs3F : stF.secrets ("postgres.certificate-data", m.ns) =
      .found (createSecret "postgres.certificate-data" m.ns "POSTGRES_CERTIFICATE_DATA"
        (b64DecodeString data.postgres.certificate.certificateBase64).1) := by
    rw [hstF]
    simp [putDeployment_secrets, putJob_secrets, putSecret, createSecret]
  have hs4F : stF.secrets ("postgres.url", m.ns) =
      .found (createSecret "postgres.url" m.ns "POSTGRES_URL"
        (postgresUrlString h0 data.postgres.database)) := by
    rw [hstF]
    simp [putDeployment_secrets, putJob_secrets, putSecret, createSecret]
  have hjobF : stF.jobs ("pg", "default") = .found (createPostgresJob m.ns) := by
    rw [hstF]
    simp [putDeployment_jobs, putSecret_jobs, putJob, createPostgresJob]
  have hdepF : stF.deployments (m.name, m.ns) = .found (deploymentForMemcached m) := by
    rw [hstF]
    simp [putDeployment, deploymentForMemcached, labelsForMemcached]
  have hconv := reconcile_converged stF rn rns m sec data h0 t (deploymentForMemcached m)
    happF hsecF hparse hhosts hs1F hs2F hs3F hs4F hjobF hdepF rfl
  refine ⟨hconv.1, rfl, hconv.2.1, ?_⟩
  rw [hconv.2.1]
  simp

/-- Witness for C7 on the concrete fresh fixture store. -/
theorem reconcile_idempotent_witness :
    (reconcile (reconcile wStoreFresh "app1" "ns1").state "app1" "ns1").state =
      (reconcile wStoreFresh "app1" "ns1").state ∧
    (reconcile wStoreFresh "app1" "ns1").writes =
      [.createSecretOp (createSecret "postgres.username" "ns1" "POSTGRES_USERNAME" "user"),
       .createSecretOp (createSecret "postgres.password" "ns1" "POSTGRES_PASSWORD" "pw"),
       .createSecretOp (createSecret "postgres.certificate-data" "ns1"
         "POSTGRES_CERTIFICATE_DATA" (b64DecodeString "Q0VSVA==").1),
       .createSecretOp (createSecret "postgres.url" "ns1" "POSTGRES_URL"
         (postgresUrlString ⟨"db.local", 5432⟩ "appdb")),
       .createJobOp (createPostgresJob "ns1"),
       .createDeploymentOp (deploymentForMemcached wApp)] ∧
    (reconcile (reconcile wStoreFresh "app1" "ns1").state "app1" "ns1").writes =
      [.updateSecretOp (createSecret "postgres.username" "ns1" "POSTGRES_USERNAME" "user"),
       .updateSecretOp (createSecret "postgres.password" "ns1" "POSTGRES_PASSWORD" "pw"),
       .updateSecretOp (createSecret "postgres.certificate-data" "ns1"
         "POSTGRES_CERTIFICATE_DATA" (b64DecodeString "Q0VSVA==").1),
       .updateSecretOp (createSecret "postgres.url" "ns1" "POSTGRES_URL"
         (postgresUrlString ⟨"db.local", 5432⟩ "appdb")),
       .updateJobOp (createPostgresJob "ns1")] ∧
    (reconcile (reconcile wStoreFresh "app1" "ns1").state "app1" "ns1").writes ≠ [] :=
  reconcile_idempotent wStoreFresh "app1" "ns1" wApp wCredSecret wData
    ⟨"db.local", 5432⟩ [] (by decide) (by decide) rfl rfl rfl rfl rfl rfl rfl rfl
